import Mathlib

/-!
Verification of the generic MongoDB model layer (`model.go`, `connector.go`,
`options_builder.go`).  The Go functions of the repository are embedded as
executable Lean definitions; the underlying mongo driver is modelled at its
boundary: a call into the driver is a parameter of the embedded function
(an outcome value or an outcome-producing function), and driver error values
are the inductive `GoErr`, with `GoErr.errNoDocuments` standing for the
sentinel `mongo.ErrNoDocuments`.
-/

namespace Mongodb

/-- Go error values as observed by this layer.
`errNoDocuments` is the driver sentinel `mongo.ErrNoDocuments`;
`decodeErr` is a driver decode failure (never equal to the sentinel);
`driverErr` is any other driver-produced error;
`wrapped msg cause` is the result of `fmt.Errorf` with a `%w` verb. -/
inductive GoErr : Type where
  | errNoDocuments : GoErr
  | decodeErr (msg : String) : GoErr
  | driverErr (msg : String) : GoErr
  | wrapped (msg : String) (cause : GoErr) : GoErr
deriving DecidableEq, Repr

/-- A Go runtime fault (distinct from an `error` return value). -/
inductive GoFault : Type where
  | nilPointerDereference : GoFault
deriving DecidableEq, Repr

/-! ## The variadic option helper `setOptions` (model.go lines 188-196)

The helper captures the variadic slice of option pointers and returns a
closure that the driver later runs on the address of a freshly allocated,
zero-valued options struct.  To settle what the closure does we embed Go
assignment semantics explicitly: option structs live in a heap addressed by
naturals, and the closure parameter `o` is a local variable holding an
address.  The statement `o = opts[0]` rebinds that local variable; it is not
a store through the pointer, so the heap is returned unchanged. -/

/-- Heap addresses. -/
abbrev Addr := Nat

/-- A heap region holding option structs of type `σ`. -/
abbrev Heap (σ : Type) := List σ

/-- Read the struct at address `a` (address 0 is always allocated below). -/
def Heap.read {σ : Type} [Inhabited σ] (h : Heap σ) (a : Addr) : σ :=
  h.getD a default

/-- Embedding of `setOptions[T any](opts ...*T) func(opts *T) error`
(model.go lines 188-196).  `opts` is the captured list of pointers; the
result is the returned closure, acting on a heap and the address held by its
pointer parameter `o`.  The body `if len(opts) > 0 { o = opts[0] }` rebinds
the local variable `o` and performs no heap write, then returns nil. -/
def setOptions {σ : Type} (opts : List Addr) : Heap σ → Addr → Heap σ × Option GoErr :=
  fun h o =>
    let o : Addr := if opts.length > 0 then opts.getD 0 o else o
    (h, none)

/-- Driver-side materialization of an options lister: the functions stored in
the `Opts` field are run in order on the target address, stopping at the
first error. -/
def runOpts {σ : Type} (fns : List (Heap σ → Addr → Heap σ × Option GoErr))
    (h : Heap σ) (target : Addr) : Heap σ × Option GoErr :=
  match fns with
  | [] => (h, none)
  | f :: rest =>
    match f h target with
    | (h1, none) => runOpts rest h1 target
    | (h1, some e) => (h1, some e)

/-- The configuration an operation forwards to the store when the caller
supplies the option structs `supplied`: the code overwrites the `Opts` field
of a fresh builder with the single function `setOptions(opts...)`, and the
driver materializes it by running that function on the address of a
zero-valued struct (address 0; the supplied structs sit at addresses 1..). -/
def forwardedConfig {σ : Type} [Inhabited σ] (supplied : List σ) : Except GoErr σ :=
  let h : Heap σ := default :: supplied
  let addrs : List Addr := (List.range supplied.length).map (· + 1)
  match runOpts [setOptions addrs] h 0 with
  | (h1, none) => .ok (Heap.read h1 0)
  | (_, some e) => .error e

/-- The forwarded configuration is always the zero-valued default: the
closure returned by `setOptions` never writes through its pointer. -/
theorem forwardedConfig_eq_default {σ : Type} [Inhabited σ] (supplied : List σ) :
    forwardedConfig supplied = .ok default := rfl

/-- Concrete per-call option struct used as a test instance, mirroring a
field of the driver `options.FindOneOptions` struct; the Go zero value has
the field unset. -/
structure FindOneOptions : Type where
  Skip : Option Int := none
deriving DecidableEq, Repr

instance : Inhabited FindOneOptions := ⟨{}⟩

/-! ## The generic model operations (model.go) -/

/-- Boundary model of the driver cursor obtained from `Find` or `Aggregate`:
`rows` are the raw documents `cursor.Next` yields in order, `iterErr` is what
`cursor.Err()` reports after iteration ends, and `closed` records whether
`cursor.Close` has run. -/
structure Cursor (Row : Type) : Type where
  rows : List Row
  iterErr : Option GoErr
  closed : Bool
deriving DecidableEq, Repr

/-- Boundary model of `SingleResult.Decode` for a `FindOne` driver call:
either no document matched (the driver returns `mongo.ErrNoDocuments`), or
the stored encoding could not populate the target type, or a document was
decoded. -/
inductive SingleResult (T : Type) : Type where
  | noMatch : SingleResult T
  | decodeFail (msg : String) : SingleResult T
  | found (t : T) : SingleResult T
deriving DecidableEq, Repr

/-- The `for cursor.Next { cursor.Decode }` loop shared by `FindMany` and
`Aggregate`: decode each row in order, returning at the first failure.
`wrap` is how the surrounding function presents a decode failure
(`FindMany` returns it unchanged, `Aggregate` wraps it). -/
def decodeRows {T Row : Type} (wrap : String → GoErr) (decode : Row → Except String T) :
    List Row → Except GoErr (List T)
  | [] => .ok []
  | r :: rs =>
    match decode r with
    | .error msg => .error (wrap msg)
    | .ok t =>
      match decodeRows wrap decode rs with
      | .error e => .error e
      | .ok ts => .ok (t :: ts)

/-- Embedding of `FindOne` (model.go lines 59-73).  The effective options are
materialized from the supplied variadic structs; `driver` is the boundary
model of `collection.FindOne(...).Decode(&result)` run with that
configuration.  On any error the zero value of `T` is returned together with
the error, exactly as `var result T` is in the source. -/
def FindOne {T σ : Type} [Inhabited T] [Inhabited σ] (supplied : List σ)
    (driver : σ → SingleResult T) : T × Option GoErr :=
  match forwardedConfig supplied with
  | .error e => (default, some e)
  | .ok cfg =>
    match driver cfg with
    | .noMatch => (default, some .errNoDocuments)
    | .decodeFail msg => (default, some (.decodeErr msg))
    | .found t => (t, none)

/-- Embedding of `FindMany` (model.go lines 76-106).  `find` is the boundary
model of `collection.Find` run with the materialized configuration, `decode`
of per-row `cursor.Decode`.  The second component is the final state of the
acquired cursor (`none` when acquisition failed); `defer cursor.Close(ctx)`
closes it on every exit path of the body. -/
def FindMany {T Row σ : Type} [Inhabited σ] (supplied : List σ)
    (find : σ → Except GoErr (Cursor Row)) (decode : Row → Except String T) :
    Except GoErr (List T) × Option (Cursor Row) :=
  match forwardedConfig supplied with
  | .error e => (.error e, none)
  | .ok cfg =>
    match find cfg with
    | .error e => (.error e, none)
    | .ok cursor =>
      let body : Except GoErr (List T) :=
        match decodeRows GoErr.decodeErr decode cursor.rows with
        | .error e => .error e
        | .ok results =>
          match cursor.iterErr with
          | some e => .error e
          | none => .ok results
      (body, some { cursor with closed := true })

/-- Driver result of `UpdateOne` / `UpdateMany`; the source discards it. -/
structure UpdateResult : Type where
  matchedCount : Nat
  modifiedCount : Nat
  upsertedCount : Nat
deriving DecidableEq, Repr

/-- Driver result of `DeleteOne` / `DeleteMany`; the source discards it. -/
structure DeleteResult : Type where
  deletedCount : Nat
deriving DecidableEq, Repr

/-- Embedding of `UpdateOne` (model.go lines 115-127): materialize the
options, run the driver call, discard the `UpdateResult`, return the error. -/
def UpdateOne {σ : Type} [Inhabited σ] (supplied : List σ)
    (driver : σ → Except GoErr UpdateResult) : Option GoErr :=
  match forwardedConfig supplied with
  | .error e => some e
  | .ok cfg =>
    match driver cfg with
    | .error e => some e
    | .ok _ => none

/-- Embedding of `UpdateMany` (model.go lines 130-142); same shape as
`UpdateOne` with the many-document driver call. -/
def UpdateMany {σ : Type} [Inhabited σ] (supplied : List σ)
    (driver : σ → Except GoErr UpdateResult) : Option GoErr :=
  match forwardedConfig supplied with
  | .error e => some e
  | .ok cfg =>
    match driver cfg with
    | .error e => some e
    | .ok _ => none

/-- Embedding of `DeleteOne` (model.go lines 145-148): run the driver call,
discard the `DeleteResult`, return the error. -/
def DeleteOne (driver : Except GoErr DeleteResult) : Option GoErr :=
  match driver with
  | .error e => some e
  | .ok _ => none

/-- Embedding of `DeleteMany` (model.go lines 151-154). -/
def DeleteMany (driver : Except GoErr DeleteResult) : Option GoErr :=
  match driver with
  | .error e => some e
  | .ok _ => none

/-- Embedding of `Aggregate` (model.go lines 157-186).  `run` is the boundary
model of `collection.Aggregate`; an acquisition failure is wrapped with the
message of the source `fmt.Errorf`, a row decode failure likewise, an
iteration error is returned unchanged, and a successful run with zero
decoded rows returns `mongo.ErrNoDocuments`.  The second component is the
final cursor state, closed by `defer cursor.Close(ctx)` on every body path. -/
def Aggregate {C Row : Type} (run : Except GoErr (Cursor Row))
    (decode : Row → Except String C) :
    Except GoErr (List C) × Option (Cursor Row) :=
  match run with
  | .error e => (.error (.wrapped "failed to execute aggregation" e), none)
  | .ok cursor =>
    let body : Except GoErr (List C) :=
      match decodeRows (fun msg => .wrapped "failed to decode aggregation result" (.decodeErr msg))
          decode cursor.rows with
      | .error e => .error e
      | .ok results =>
        match cursor.iterErr with
        | some e => .error e
        | none =>
          if results.length = 0 then .error .errNoDocuments
          else .ok results
    (body, some { cursor with closed := true })

/-! ## Options builder (options_builder.go) and connector (connector.go)

The five database-level configuration payloads (BSON options, read concern,
read preference, registry, write concern) are opaque collaborator objects;
each is modelled as a `Nat` payload behind an `Option` standing for a Go
pointer that may be nil.  The client-level configuration type is a type
parameter `CO`, and `applyURI` models `options.Client().ApplyURI`. -/

/-- The `*options.DatabaseOptions` argument struct, field for field. -/
structure DatabaseOptions : Type where
  BSONOptions : Option Nat
  ReadConcern : Option Nat
  ReadPreference : Option Nat
  Registry : Option Nat
  WriteConcern : Option Nat
deriving DecidableEq, Repr

/-- The builder produced by `options.Database()`; every field starts unset,
and the `Set*` methods below populate one field each. -/
structure DatabaseOptionsBuilder : Type where
  BSONOptions : Option Nat := none
  ReadConcern : Option Nat := none
  ReadPreference : Option Nat := none
  Registry : Option Nat := none
  WriteConcern : Option Nat := none
deriving DecidableEq, Repr

def DatabaseOptionsBuilder.SetBSONOptions (b : DatabaseOptionsBuilder) (v : Nat) :
    DatabaseOptionsBuilder := { b with BSONOptions := some v }

def DatabaseOptionsBuilder.SetReadConcern (b : DatabaseOptionsBuilder) (v : Nat) :
    DatabaseOptionsBuilder := { b with ReadConcern := some v }

def DatabaseOptionsBuilder.SetReadPreference (b : DatabaseOptionsBuilder) (v : Nat) :
    DatabaseOptionsBuilder := { b with ReadPreference := some v }

def DatabaseOptionsBuilder.SetRegistry (b : DatabaseOptionsBuilder) (v : Nat) :
    DatabaseOptionsBuilder := { b with Registry := some v }

def DatabaseOptionsBuilder.SetWriteConcern (b : DatabaseOptionsBuilder) (v : Nat) :
    DatabaseOptionsBuilder := { b with WriteConcern := some v }

/-- Embedding of `BuildDatabaseOptions` (options_builder.go lines 7-27).
The parameter is a Go pointer, so `none` models a nil argument: the first
field access `opts.BSONOptions` then faults.  Otherwise each of the five
fields is copied into the builder when it is non-nil. -/
def BuildDatabaseOptions (opts : Option DatabaseOptions) :
    Except GoFault DatabaseOptionsBuilder :=
  match opts with
  | none => .error .nilPointerDereference
  | some o =>
    let dbOpts : DatabaseOptionsBuilder := {}
    let dbOpts := match o.BSONOptions with
      | some v => dbOpts.SetBSONOptions v
      | none => dbOpts
    let dbOpts := match o.ReadConcern with
      | some v => dbOpts.SetReadConcern v
      | none => dbOpts
    let dbOpts := match o.ReadPreference with
      | some v => dbOpts.SetReadPreference v
      | none => dbOpts
    let dbOpts := match o.Registry with
      | some v => dbOpts.SetRegistry v
      | none => dbOpts
    let dbOpts := match o.WriteConcern with
      | some v => dbOpts.SetWriteConcern v
      | none => dbOpts
    .ok dbOpts

/-- A mongo client handle: `id` identifies the allocation (each successful
`mongo.Connect` creates a fresh client) and `cfg` is the client
configuration it was created from. -/
structure MongoClient (CO : Type) : Type where
  id : Nat
  cfg : CO
deriving DecidableEq, Repr

/-- A database handle returned by `client.Database`: a view into its client,
carrying the database name and the database-level options it was obtained
with (`none` when obtained with store defaults). -/
structure MongoDatabase (CO : Type) : Type where
  client : MongoClient CO
  name : String
  opts : Option DatabaseOptionsBuilder
deriving DecidableEq, Repr

/-- The `DatabaseConnector` struct (connector.go lines 18-36), field for
field; Go nil pointers are `none`. -/
structure DatabaseConnector (CO : Type) : Type where
  DatabaseName : String
  URI : String
  Options : Option DatabaseOptions := none
  ClientOptions : Option CO := none
  Client : Option (MongoClient CO) := none
deriving DecidableEq, Repr

/-- Driver-side allocation state threaded through `Connect`: the next fresh
client id, and the set of client ids that have been disconnected.  `Connect`
never disconnects anything, so `released` can only be changed elsewhere. -/
structure DriverState : Type where
  nextId : Nat
  released : List Nat
deriving DecidableEq, Repr

/-- Failure of a `Connect` call: either an error value from `mongo.Connect`
or a runtime fault. -/
inductive ConnectFailure : Type where
  | connectionError (e : GoErr) : ConnectFailure
  | fault (f : GoFault) : ConnectFailure
deriving DecidableEq, Repr

/-- Embedding of `Connect` (connector.go lines 53-69).  `applyURI` models
`options.Client().ApplyURI`; `cErr` models whether `mongo.Connect` fails on
a given configuration.  On success a fresh client is allocated from `st`,
stored in the `Client` field of the returned connector (the Go method
mutates its receiver), and the database handle is obtained with the built
database options exactly when the `Options` field is non-nil. -/
def Connect {CO : Type} (applyURI : String → CO) (cErr : CO → Option GoErr)
    (st : DriverState) (c : DatabaseConnector CO) :
    DriverState × Except ConnectFailure (DatabaseConnector CO × MongoDatabase CO) :=
  let opts := applyURI c.URI
  let opts := match c.ClientOptions with
    | some co => co
    | none => opts
  match cErr opts with
  | some e => (st, .error (.connectionError e))
  | none =>
    let client : MongoClient CO := { id := st.nextId, cfg := opts }
    let st1 : DriverState := { st with nextId := st.nextId + 1 }
    let c1 := { c with Client := some client }
    match c.Options with
    | some _ =>
      match BuildDatabaseOptions c.Options with
      | .error f => (st1, .error (.fault f))
      | .ok lister =>
        (st1, .ok (c1, { client := client, name := c.DatabaseName, opts := some lister }))
    | none => (st1, .ok (c1, { client := client, name := c.DatabaseName, opts := none }))

/-! ## Helper lemmas -/

/-- On a non-nil argument, `BuildDatabaseOptions` copies the five fields:
a non-nil field is copied by its `Set*` call and a nil field is left at the
unset builder default, which is nil as well. -/
theorem buildDatabaseOptions_some (o : DatabaseOptions) :
    BuildDatabaseOptions (some o) =
      .ok { BSONOptions := o.BSONOptions, ReadConcern := o.ReadConcern,
            ReadPreference := o.ReadPreference, Registry := o.Registry,
            WriteConcern := o.WriteConcern } := by
  obtain ⟨b, rc, rp, rg, wc⟩ := o
  cases b <;> cases rc <;> cases rp <;> cases rg <;> cases wc <;> rfl

/-- Characterization of a successful `Connect` call: the returned database
handle holds the freshly allocated client, that client is stored on the
connector, the allocation counter advanced by one, nothing was released,
and the client configuration is the `ClientOptions` field when it is set and
the URI-derived configuration otherwise. -/
theorem connect_ok {CO : Type} (applyURI : String → CO) (cErr : CO → Option GoErr)
    (st st1 : DriverState) (c c1 : DatabaseConnector CO) (db : MongoDatabase CO)
    (h : Connect applyURI cErr st c = (st1, .ok (c1, db))) :
    db.client.id = st.nextId ∧ st1.nextId = st.nextId + 1 ∧
    st1.released = st.released ∧ c1.Client = some db.client ∧
    db.client.cfg = (match c.ClientOptions with
      | some co => co
      | none => applyURI c.URI) := by
  obtain ⟨dn, uri, dbo, co, cl⟩ := c
  cases co with
  | none =>
    cases hce : cErr (applyURI uri) with
    | some e => simp [Connect, hce] at h
    | none =>
      cases dbo with
      | none =>
        simp only [Connect, hce, Prod.mk.injEq, Except.ok.injEq] at h
        obtain ⟨h1, h2, h3⟩ := h
        subst h1 h2 h3
        simp
      | some o =>
        simp only [Connect, hce, buildDatabaseOptions_some, Prod.mk.injEq,
          Except.ok.injEq] at h
        obtain ⟨h1, h2, h3⟩ := h
        subst h1 h2 h3
        simp
  | some x =>
    cases hce : cErr x with
    | some e => simp [Connect, hce] at h
    | none =>
      cases dbo with
      | none =>
        simp only [Connect, hce, Prod.mk.injEq, Except.ok.injEq] at h
        obtain ⟨h1, h2, h3⟩ := h
        subst h1 h2 h3
        simp
      | some o =>
        simp only [Connect, hce, buildDatabaseOptions_some, Prod.mk.injEq,
          Except.ok.injEq] at h
        obtain ⟨h1, h2, h3⟩ := h
        subst h1 h2 h3
        simp

/-! ## Claims -/

/-- Claim C1, evaluated at the failing input.  With zero supplied option
structs the forwarded configuration is the zero-valued default, as the claim
states; but with one supplied struct the forwarded configuration is still
the default rather than the supplied struct: the closure returned by
`setOptions` assigns `opts[0]` to its local pointer parameter and never
writes through it, so the first supplied option object does not take effect. -/
theorem setOptions_first_option_not_applied :
    forwardedConfig ([] : List FindOneOptions) = .ok {} ∧
    forwardedConfig [({ Skip := some 5 } : FindOneOptions)] = .ok {} ∧
    ({} : FindOneOptions) ≠ { Skip := some 5 } :=
  ⟨rfl, rfl, by decide⟩

/-- Claim C2: when the store accepts the pipeline and execution succeeds
(no iteration error) with zero output rows, `Aggregate` returns the
distinguished empty-result error, the driver sentinel `mongo.ErrNoDocuments`,
and no result sequence. -/
theorem aggregate_zero_rows_empty_result {C Row : Type} (decode : Row → Except String C)
    (cur : Cursor Row) (hrows : cur.rows = []) (hiter : cur.iterErr = none) :
    (Aggregate (.ok cur) decode).1 = .error GoErr.errNoDocuments := by
  simp [Aggregate, hrows, hiter, decodeRows]

theorem aggregate_zero_rows_empty_result_witness :
    (⟨[], none, false⟩ : Cursor Nat).rows = [] ∧
    (⟨[], none, false⟩ : Cursor Nat).iterErr = none ∧
    (Aggregate (.ok (⟨[], none, false⟩ : Cursor Nat))
      (fun r : Nat => .ok r)).1 = .error GoErr.errNoDocuments :=
  ⟨rfl, rfl, aggregate_zero_rows_empty_result (fun r : Nat => .ok r) ⟨[], none, false⟩ rfl rfl⟩

/-- Claim C3: when the filter matches zero documents (the store returns a
cursor yielding no rows and reporting no iteration error), `FindMany`
returns the empty sequence and no error, whatever option structs were
supplied. -/
theorem findMany_zero_match_empty_success {T Row σ : Type} [Inhabited σ]
    (supplied : List σ) (find : σ → Except GoErr (Cursor Row))
    (decode : Row → Except String T) (cur : Cursor Row)
    (hfind : find default = .ok cur) (hrows : cur.rows = []) (hiter : cur.iterErr = none) :
    (FindMany supplied find decode).1 = .ok [] := by
  simp [FindMany, forwardedConfig_eq_default, hfind, hrows, hiter, decodeRows]

theorem findMany_zero_match_empty_success_witness :
    ((fun _ : Nat => (.ok ⟨[], none, false⟩ : Except GoErr (Cursor Nat))) default
      = .ok ⟨[], none, false⟩) ∧
    (FindMany ([] : List Nat) (fun _ => .ok ⟨[], none, false⟩)
      (fun r : Nat => .ok r)).1 = .ok [] :=
  ⟨rfl, findMany_zero_match_empty_success [] (fun _ => .ok ⟨[], none, false⟩)
    (fun r : Nat => .ok r) ⟨[], none, false⟩ rfl rfl rfl⟩

/-- Claim C4: when the filter matches zero documents `FindOne` fails with
the driver sentinel `mongo.ErrNoDocuments` (the NotFound condition), when
the stored encoding cannot populate the target type it fails with the decode
error, and the two error values are distinct conditions. -/
theorem findOne_notFound_and_decodeError {T σ : Type} [Inhabited T] [Inhabited σ]
    (supplied supplied2 : List σ) (driver driver2 : σ → SingleResult T) (msg : String)
    (h1 : driver default = .noMatch) (h2 : driver2 default = .decodeFail msg) :
    (FindOne supplied driver).2 = some GoErr.errNoDocuments ∧
    (FindOne supplied2 driver2).2 = some (GoErr.decodeErr msg) ∧
    GoErr.errNoDocuments ≠ GoErr.decodeErr msg := by
  refine ⟨?_, ?_, by simp⟩
  · simp [FindOne, forwardedConfig_eq_default, h1]
  · simp [FindOne, forwardedConfig_eq_default, h2]

theorem findOne_notFound_and_decodeError_witness :
    ((fun _ : Nat => (.noMatch : SingleResult Nat)) default = .noMatch) ∧
    ((fun _ : Nat => (.decodeFail "bad" : SingleResult Nat)) default = .decodeFail "bad") ∧
    (FindOne ([] : List Nat) (fun _ => (.noMatch : SingleResult Nat))).2
      = some GoErr.errNoDocuments :=
  ⟨rfl, rfl,
    (findOne_notFound_and_decodeError [] [] (fun _ => (.noMatch : SingleResult Nat))
      (fun _ => .decodeFail "bad") "bad" rfl rfl).1⟩

/-- Claim C5: when the filter matches zero documents the driver update and
delete calls succeed with zero counts, and `UpdateOne`, `UpdateMany`,
`DeleteOne` and `DeleteMany` each return no error; the result counts are
discarded, so no matched count reaches the caller. -/
theorem update_delete_zero_match_no_error {σ : Type} [Inhabited σ]
    (s1 s2 : List σ) (du dm : σ → Except GoErr UpdateResult)
    (ru rm : UpdateResult) (rd1 rd2 : DeleteResult)
    (hu : du default = .ok ru) (hm : dm default = .ok rm)
    (hru : ru.matchedCount = 0) (hrm : rm.matchedCount = 0)
    (hd1 : rd1.deletedCount = 0) (hd2 : rd2.deletedCount = 0) :
    UpdateOne s1 du = none ∧ UpdateMany s2 dm = none ∧
    DeleteOne (.ok rd1) = none ∧ DeleteMany (.ok rd2) = none := by
  refine ⟨?_, ?_, rfl, rfl⟩
  · simp [UpdateOne, forwardedConfig_eq_default, hu]
  · simp [UpdateMany, forwardedConfig_eq_default, hm]

theorem update_delete_zero_match_no_error_witness :
    ((fun _ : Nat => (.ok ⟨0, 0, 0⟩ : Except GoErr UpdateResult)) default = .ok ⟨0, 0, 0⟩) ∧
    (⟨0, 0, 0⟩ : UpdateResult).matchedCount = 0 ∧
    (⟨0⟩ : DeleteResult).deletedCount = 0 ∧
    UpdateOne ([] : List Nat) (fun _ => .ok ⟨0, 0, 0⟩) = none ∧
    DeleteOne (.ok ⟨0⟩) = none :=
  ⟨rfl, rfl, rfl,
    (update_delete_zero_match_no_error ([] : List Nat) [] (fun _ => .ok ⟨0, 0, 0⟩)
      (fun _ => .ok ⟨0, 0, 0⟩) ⟨0, 0, 0⟩ ⟨0, 0, 0⟩ ⟨0⟩ ⟨0⟩
      rfl rfl rfl rfl rfl rfl).1,
    (update_delete_zero_match_no_error ([] : List Nat) [] (fun _ => .ok ⟨0, 0, 0⟩)
      (fun _ => .ok ⟨0, 0, 0⟩) ⟨0, 0, 0⟩ ⟨0, 0, 0⟩ ⟨0⟩ ⟨0⟩
      rfl rfl rfl rfl rfl rfl).2.2.1⟩

/-- Claim C6: on every successful `Connect`, when the `ClientOptions` field
is set the client is created from that configuration object wholesale, and
when it is not the client is created from the URI-derived configuration. -/
theorem connect_client_options_wholesale {CO : Type} (applyURI : String → CO)
    (cErr : CO → Option GoErr) (st st1 : DriverState)
    (c c1 : DatabaseConnector CO) (db : MongoDatabase CO)
    (h : Connect applyURI cErr st c = (st1, .ok (c1, db))) :
    db.client.cfg = (match c.ClientOptions with
      | some co => co
      | none => applyURI c.URI) :=
  (connect_ok applyURI cErr st st1 c c1 db h).2.2.2.2

theorem connect_client_options_wholesale_witness :
    (Connect (fun s : String => s.length) (fun _ => none) ⟨0, []⟩
        ⟨"d", "uri", none, some 7, none⟩ =
      (⟨1, []⟩, .ok (⟨"d", "uri", none, some 7, some ⟨0, 7⟩⟩, ⟨⟨0, 7⟩, "d", none⟩))) ∧
    (⟨⟨0, 7⟩, "d", none⟩ : MongoDatabase Nat).client.cfg = 7 :=
  ⟨rfl, connect_client_options_wholesale (fun s : String => s.length) (fun _ => none)
    ⟨0, []⟩ ⟨1, []⟩ ⟨"d", "uri", none, some 7, none⟩
    ⟨"d", "uri", none, some 7, some ⟨0, 7⟩⟩ ⟨⟨0, 7⟩, "d", none⟩ rfl⟩

/-- Claim C7: whenever `FindMany` or `Aggregate` successfully acquires a
cursor, the cursor state at return is closed; the close is installed by
`defer` before the body runs, so it covers every exit path of the body,
including per-row decode failure and iteration error. -/
theorem cursor_closed_on_every_path {T C Row σ : Type} [Inhabited σ]
    (supplied : List σ) (find : σ → Except GoErr (Cursor Row))
    (decodeT : Row → Except String T) (decodeC : Row → Except String C)
    (cur agCur : Cursor Row) (hfind : find default = .ok cur) :
    (FindMany supplied find decodeT).2 = some { cur with closed := true } ∧
    (Aggregate (.ok agCur) decodeC).2 = some { agCur with closed := true } := by
  constructor
  · simp [FindMany, forwardedConfig_eq_default, hfind]
  · rfl

theorem cursor_closed_on_every_path_witness :
    ((fun _ : Nat => (.ok ⟨[1], some (.driverErr "boom"), false⟩ :
        Except GoErr (Cursor Nat))) default = .ok ⟨[1], some (.driverErr "boom"), false⟩) ∧
    (FindMany ([] : List Nat) (fun _ => .ok ⟨[1], some (.driverErr "boom"), false⟩)
      (fun _ : Nat => (.error "no" : Except String Nat))).2
      = some ⟨[1], some (.driverErr "boom"), true⟩ :=
  ⟨rfl, (cursor_closed_on_every_path ([] : List Nat)
    (fun _ => .ok ⟨[1], some (.driverErr "boom"), false⟩)
    (fun _ : Nat => (.error "no" : Except String Nat))
    (fun r : Nat => (.ok r : Except String Nat))
    ⟨[1], some (.driverErr "boom"), false⟩ ⟨[], none, false⟩ rfl).1⟩

/-- Claim C8: a successful `Connect` stores the newly created client on the
connector; a second `Connect` on the returned connector allocates a distinct
client and overwrites the stored handle, and neither call releases any
client. -/
theorem connect_twice_second_client_overwrites {CO : Type} (applyURI : String → CO)
    (cErr : CO → Option GoErr) (st st1 st2 : DriverState)
    (c c1 c2 : DatabaseConnector CO) (db1 db2 : MongoDatabase CO)
    (h1 : Connect applyURI cErr st c = (st1, .ok (c1, db1)))
    (h2 : Connect applyURI cErr st1 c1 = (st2, .ok (c2, db2))) :
    c1.Client = some db1.client ∧ c2.Client = some db2.client ∧
    db2.client ≠ db1.client ∧ st2.released = st.released := by
  obtain ⟨i1, n1, r1, cl1, _⟩ := connect_ok applyURI cErr st st1 c c1 db1 h1
  obtain ⟨i2, n2, r2, cl2, _⟩ := connect_ok applyURI cErr st1 st2 c1 c2 db2 h2
  refine ⟨cl1, cl2, ?_, r2.trans r1⟩
  intro he
  have hid : db2.client.id = db1.client.id := by rw [he]
  rw [i1, i2, n1] at hid
  omega

theorem connect_twice_second_client_overwrites_witness :
    (Connect (fun _ : String => (0 : Nat)) (fun _ => none) ⟨0, []⟩
        ⟨"d", "u", none, none, none⟩ =
      (⟨1, []⟩, .ok (⟨"d", "u", none, none, some ⟨0, 0⟩⟩, ⟨⟨0, 0⟩, "d", none⟩))) ∧
    (Connect (fun _ : String => (0 : Nat)) (fun _ => none) ⟨1, []⟩
        ⟨"d", "u", none, none, some ⟨0, 0⟩⟩ =
      (⟨2, []⟩, .ok (⟨"d", "u", none, none, some ⟨1, 0⟩⟩, ⟨⟨1, 0⟩, "d", none⟩))) ∧
    ((⟨"d", "u", none, none, some ⟨0, 0⟩⟩ : DatabaseConnector Nat).Client = some ⟨0, 0⟩ ∧
     (⟨"d", "u", none, none, some ⟨1, 0⟩⟩ : DatabaseConnector Nat).Client = some ⟨1, 0⟩ ∧
     (⟨1, 0⟩ : MongoClient Nat) ≠ ⟨0, 0⟩ ∧
     (⟨2, []⟩ : DriverState).released = (⟨0, []⟩ : DriverState).released) :=
  ⟨rfl, rfl,
    connect_twice_second_client_overwrites (fun _ : String => (0 : Nat)) (fun _ => none)
      ⟨0, []⟩ ⟨1, []⟩ ⟨2, []⟩ ⟨"d", "u", none, none, none⟩
      ⟨"d", "u", none, none, some ⟨0, 0⟩⟩ ⟨"d", "u", none, none, some ⟨1, 0⟩⟩
      ⟨⟨0, 0⟩, "d", none⟩ ⟨⟨1, 0⟩, "d", none⟩ rfl rfl⟩

/-- Claim C9: the error value `Aggregate` returns when execution succeeds
with zero rows is the very sentinel the driver returns for a `FindOne` with
no match (`mongo.ErrNoDocuments`), which `FindOne` surfaces unchanged; a
caller comparing error values cannot tell the two conditions apart. -/
theorem aggregate_empty_error_equals_findOne_notFound {T C Row σ : Type}
    [Inhabited T] [Inhabited σ] (supplied : List σ) (decode : Row → Except String C)
    (b : Bool) :
    (Aggregate (.ok (⟨[], none, b⟩ : Cursor Row)) decode).1
      = .error GoErr.errNoDocuments ∧
    (FindOne (T := T) supplied (fun _ => SingleResult.noMatch)).2
      = some GoErr.errNoDocuments :=
  ⟨rfl, by simp [FindOne, forwardedConfig_eq_default]⟩

/-- Claim C10: `BuildDatabaseOptions` dereferences its argument
unconditionally, faulting on nil; on a non-nil argument it copies exactly
the non-nil fields of the five into the builder, leaving the others unset;
and `Connect` calls it only under a nil check on the `Options` field, so the
fault is unreachable through `Connect`. -/
theorem buildDatabaseOptions_contract :
    (BuildDatabaseOptions none = .error GoFault.nilPointerDereference) ∧
    (∀ o : DatabaseOptions, BuildDatabaseOptions (some o) =
      .ok { BSONOptions := o.BSONOptions, ReadConcern := o.ReadConcern,
            ReadPreference := o.ReadPreference, Registry := o.Registry,
            WriteConcern := o.WriteConcern }) ∧
    (∀ (CO : Type) (applyURI : String → CO) (cErr : CO → Option GoErr)
      (st : DriverState) (c : DatabaseConnector CO) (f : GoFault),
      (Connect applyURI cErr st c).2 ≠ .error (.fault f)) := by
  refine ⟨rfl, buildDatabaseOptions_some, ?_⟩
  intro CO applyURI cErr st c f
  obtain ⟨dn, uri, dbo, co, cl⟩ := c
  cases co with
  | none =>
    cases hce : cErr (applyURI uri) with
    | some e => simp [Connect, hce]
    | none =>
      cases dbo with
      | none => simp [Connect, hce]
      | some o => simp [Connect, hce, buildDatabaseOptions_some]
  | some x =>
    cases hce : cErr x with
    | some e => simp [Connect, hce]
    | none =>
      cases dbo with
      | none => simp [Connect, hce]
      | some o => simp [Connect, hce, buildDatabaseOptions_some]

end Mongodb
